import Mathlib

/-!
Verification of the OTP authentication server of the Legal Redline Sandbox
repository (the Express auth server: in-memory `otpStore` / `sessionStore`,
JWT issuance and verification, and the `/auth/send-otp`, `/auth/verify-otp`,
`/auth/verify-token`, `/auth/logout` handlers).

The server's state lives in two process-wide JavaScript objects; we embed
them as association lists from string keys to entries.  Time (`Date.now()`)
is passed explicitly as a natural number of milliseconds; every source of
randomness (`crypto.randomInt`, `crypto.randomBytes`) is passed explicitly
as a parameter; the outcome of the asynchronous email dispatch is passed as
a boolean.  JSON request-body values are embedded as `JValue`, so that
JavaScript truthiness (`!otp`) and strict equality (`!==`) can be stated
faithfully.
-/

namespace AuthServer

/-- A JSON value as it can appear in a parsed request body.  Only the
shapes that the auth handlers inspect are represented. -/
inductive JValue where
  | jnull
  | jbool (b : Bool)
  | jnum (n : Int)
  | jstr (s : String)
  deriving DecidableEq, Repr

/-- JavaScript truthiness of a `JValue`, as used by checks such as
`if (!otp)`: `null`, `false`, `0` and the empty string are falsy. -/
def jTruthy : JValue → Bool
  | .jnull => false
  | .jbool b => b
  | .jnum n => n != 0
  | .jstr s => s != ""

/-- JavaScript strict equality (`===`) on `JValue`: values of different
types are never strictly equal; values of the same type compare
structurally. -/
def jStrictEq : JValue → JValue → Bool
  | .jnull, .jnull => true
  | .jbool a, .jbool b => a == b
  | .jnum a, .jnum b => a == b
  | .jstr a, .jstr b => a == b
  | _, _ => false

/-- One pending OTP challenge, the value stored in `otpStore[email]`:
`otpStore[email] = { otp, expiresAt: Date.now() + 5*60*1000, attempts: 0 }`. -/
structure OtpEntry where
  otp : String
  expiresAt : Nat
  attempts : Nat
  deriving DecidableEq, Repr

/-- One live session, the value stored in `sessionStore[sessionId]`
(`{ email, createdAt, lastActivity }`; the source stores timestamps, here
kept as naturals on the same clock as `now`). -/
structure Session where
  email : String
  createdAt : Nat
  lastActivity : Nat
  deriving DecidableEq, Repr

/-- Lookup in a JavaScript-object-as-map: `store[k]`, `undefined` ↦ `none`. -/
def alLookup {α : Type} : List (String × α) → String → Option α
  | [], _ => none
  | (k, v) :: rest, key => if k = key then some v else alLookup rest key

/-- Deletion from a JavaScript-object-as-map: `delete store[k]`. -/
def alErase {α : Type} : List (String × α) → String → List (String × α)
  | [], _ => []
  | (k, v) :: rest, key => if k = key then alErase rest key else (k, v) :: alErase rest key

/-- Assignment in a JavaScript-object-as-map: `store[k] = v`, overwriting
any previous binding for `k`. -/
def alInsert {α : Type} (l : List (String × α)) (key : String) (v : α) : List (String × α) :=
  (key, v) :: alErase l key

/-- The whole mutable state of the auth server: the two in-memory stores
`const otpStore = {}` and `const sessionStore = {}`. -/
structure AuthState where
  otpStore : List (String × OtpEntry)
  sessionStore : List (String × Session)
  deriving DecidableEq, Repr

/-- The decoded JWT payload as `jwt.verify` returns it (the middleware's
`req.user`): the two custom fields `{ email, sessionId }` the handler
passes to `jwt.sign`, plus the registered claims that `jsonwebtoken` adds
to the payload at signing time — `iat` (the issue instant, added by
default) and `exp` (the expiry instant, added because `expiresIn` is
given). -/
structure TokenPayload where
  email : String
  sessionId : String
  iat : Nat
  exp : Nat
  deriving DecidableEq, Repr

/-- A signed bearer token.  The signature is modelled ideally: the token
records which secret it was signed with, and verification succeeds exactly
when that secret matches the verifier's secret (a perfect MAC). -/
structure Token where
  payload : TokenPayload
  signedWith : String
  deriving DecidableEq, Repr

/-- `generateToken`: `jwt.sign({ email, sessionId }, JWT_SECRET,
{ expiresIn: JWT_EXPIRES_IN || "24h" })`.  `ttl` is the configured
lifetime (86400 seconds by default) on the same clock as `now`; signing
records `iat = now` and `exp = now + ttl` inside the payload, as
`jsonwebtoken` does. -/
def generateToken (secret : String) (ttl : Nat) (now : Nat)
    (email sessionId : String) : Token :=
  { payload := { email := email, sessionId := sessionId, iat := now, exp := now + ttl }
    signedWith := secret }

/-- Outcome of `jwt.verify(token, secret, cb)`. -/
inductive JwtResult where
  | invalid
  | expired
  | ok (p : TokenPayload)
  deriving DecidableEq, Repr

/-- `jwt.verify`: fails on a signature made with a different secret,
fails on an expired token (the payload's `exp <= now`), and otherwise
returns the full decoded payload, registered claims included. -/
def jwtVerify (secret : String) (t : Token) (now : Nat) : JwtResult :=
  if t.signedWith ≠ secret then .invalid
  else if t.payload.exp ≤ now then .expired
  else .ok t.payload

/-- `jwt.sign` when the secret may be absent from the environment:
`jsonwebtoken` throws `secretOrPrivateKey must have a value` at call time
when `process.env.JWT_SECRET` is `undefined`. -/
def generateTokenE (secret : Option String) (ttl : Nat) (now : Nat)
    (email sessionId : String) : Except String Token :=
  match secret with
  | none => .error "secretOrPrivateKey must have a value"
  | some s => .ok (generateToken s ttl now email sessionId)

/-- The relevant environment configuration read via `process.env`. -/
structure Env where
  jwtSecret : Option String
  emailUser : Option String
  port : Option Nat
  deriving DecidableEq, Repr

/-- Result of process startup. -/
inductive StartupResult where
  | listening (port : Nat)
  | fatal (msg : String)
  deriving DecidableEq, Repr

/-- The startup sequence (`const PORT = process.env.PORT || 5000;
app.listen(PORT, ...)`).  The source performs no validation of the
environment: no configuration value, `JWT_SECRET` included, is checked
before the server starts listening. -/
def serverStartup (env : Env) : StartupResult :=
  .listening (env.port.getD 5000)

/-- The decimal digit characters, as produced by JavaScript
`Number.prototype.toString` for integers. -/
def digitChar : Nat → Char
  | 0 => '0'
  | 1 => '1'
  | 2 => '2'
  | 3 => '3'
  | 4 => '4'
  | 5 => '5'
  | 6 => '6'
  | 7 => '7'
  | 8 => '8'
  | 9 => '9'
  | _ => '*'

/-- Numeric value of a decimal digit character (inverse of `digitChar`;
non-digits map to `10`). -/
def digitVal : Char → Nat
  | '0' => 0
  | '1' => 1
  | '2' => 2
  | '3' => 3
  | '4' => 4
  | '5' => 5
  | '6' => 6
  | '7' => 7
  | '8' => 8
  | '9' => 9
  | _ => 10

/-- Little-endian decimal digits of `n`, with explicit fuel so the
definition is structural (call with `fuel > n`). -/
def natDigitsAux : Nat → Nat → List Char
  | 0, _ => []
  | fuel + 1, n =>
    if n < 10 then [digitChar n]
    else digitChar (n % 10) :: natDigitsAux fuel (n / 10)

/-- Little-endian decimal digits of `n`. -/
def natDigitsLE (n : Nat) : List Char :=
  natDigitsAux (n + 1) n

/-- JavaScript `Number.prototype.toString()` for a non-negative integer:
its decimal digit string, most significant digit first, no leading
zeros. -/
def natToString (n : Nat) : String :=
  ⟨(natDigitsLE n).reverse⟩

/-- Value of a little-endian digit-character list (the left inverse of
`natDigitsLE`, used to reason about which strings `natToString` can
produce). -/
def parseDigitsLE : List Char → Nat
  | [] => 0
  | c :: rest => digitVal c + 10 * parseDigitsLE rest

/-- The email-shape test of `/auth/send-otp`, the regular expression
`/^[^\s@]+@[^\s@]+\.[^\s@]+$/`: the whole string splits as
`local@x.y` where `local`, `x`, `y` are nonempty and free of whitespace
and `@` (`x` and `y` may themselves contain dots).  Because the character
classes all exclude `@`, a match forces exactly one `@`; the
domain part must contain a dot that is neither its first nor its last
character. -/
def emailOk (s : String) : Bool :=
  let cs := s.data
  let ok : Char → Bool := fun c => !c.isWhitespace
  cs.count '@' == 1 &&
  (let localPart := cs.takeWhile (· ≠ '@')
   let domain := (cs.dropWhile (· ≠ '@')).tail
   !localPart.isEmpty && localPart.all ok &&
   domain.all ok && (domain.drop 1).dropLast.contains '.')

/-- Outcome of `POST /auth/send-otp`. -/
inductive SendOtpResult where
  | missingEmail
  | invalidEmail
  | deliveryError
  | sent (expiresIn : Nat)
  deriving DecidableEq, Repr

/-- The `/auth/send-otp` handler.  `r` is the draw of
`crypto.randomInt(100000, 999999)` (lower bound inclusive, upper bound
exclusive), `dispatchOk` the outcome of the awaited
`transporter.sendMail` call.  The fresh entry is written to `otpStore`
before the dispatch is attempted and is not rolled back when the
dispatch fails. -/
def sendOtp (email : String) (r : Nat) (now : Nat) (dispatchOk : Bool)
    (st : AuthState) : SendOtpResult × AuthState :=
  if email = "" then (.missingEmail, st)
  else if !emailOk email then (.invalidEmail, st)
  else
    let entry : OtpEntry := { otp := natToString r, expiresAt := now + 5 * 60 * 1000, attempts := 0 }
    let st' : AuthState := { st with otpStore := alInsert st.otpStore email entry }
    if dispatchOk then (.sent 300, st') else (.deliveryError, st')

/-- Outcome of `POST /auth/verify-otp`. -/
inductive VerifyOtpResult where
  | validationError
  | notFoundError
  | tooManyAttemptsError
  | expiredError
  | invalidCodeError (remaining : Nat)
  | success (token : Token) (sessionId : String) (email : String)
  deriving DecidableEq, Repr

/-- The `/auth/verify-otp` handler.  `otp` is the raw JSON body field
(compared with the stored string by strict `!==`); `newSessionId` is the
draw of `crypto.randomBytes(32).toString('hex')` used if verification
succeeds; `secret`/`ttl` configure `generateToken`. -/
def verifyOtp (secret : String) (ttl : Nat) (now : Nat) (newSessionId : String)
    (email : String) (otp : JValue) (st : AuthState) : VerifyOtpResult × AuthState :=
  if email = "" ∨ jTruthy otp = false then (.validationError, st)
  else
    match alLookup st.otpStore email with
    | none => (.notFoundError, st)
    | some stored =>
      if stored.attempts ≥ 3 then
        (.tooManyAttemptsError, { st with otpStore := alErase st.otpStore email })
      else if now > stored.expiresAt then
        (.expiredError, { st with otpStore := alErase st.otpStore email })
      else if jStrictEq (.jstr stored.otp) otp = false then
        (.invalidCodeError (3 - (stored.attempts + 1)),
         { st with otpStore := alInsert st.otpStore email { stored with attempts := stored.attempts + 1 } })
      else
        (.success (generateToken secret ttl now email newSessionId) newSessionId email,
         { otpStore := alErase st.otpStore email
           sessionStore := alInsert st.sessionStore newSessionId
             { email := email, createdAt := now, lastActivity := now } })

/-- Outcome of `GET /auth/verify-token` (the `authenticateToken`
middleware composed with the handler). -/
inductive VerifyTokenResult where
  | missingToken
  | invalidToken
  | sessionNotFound
  | valid (email sessionId : String)
  deriving DecidableEq, Repr

/-- `GET /auth/verify-token`: `authenticateToken` (401 when no bearer
token, 403 when `jwt.verify` fails) followed by the handler's
`sessionStore` lookup (401 `Session not found` when absent); on success
`lastActivity` is refreshed and `{valid, user, sessionId}` returned. -/
def verifyTokenEndpoint (secret : String) (now : Nat) (tok : Option Token)
    (st : AuthState) : VerifyTokenResult × AuthState :=
  match tok with
  | none => (.missingToken, st)
  | some t =>
    match jwtVerify secret t now with
    | .invalid => (.invalidToken, st)
    | .expired => (.invalidToken, st)
    | .ok p =>
      match alLookup st.sessionStore p.sessionId with
      | none => (.sessionNotFound, st)
      | some sess =>
        (.valid p.email p.sessionId,
         { st with sessionStore :=
             alInsert st.sessionStore p.sessionId ({ sess with lastActivity := now }) })

/-- Outcome of `POST /auth/logout`. -/
inductive LogoutResult where
  | missingToken
  | invalidToken
  | loggedOut
  deriving DecidableEq, Repr

/-- `POST /auth/logout`: `authenticateToken` followed by
`delete sessionStore[req.user.sessionId]`. -/
def logoutEndpoint (secret : String) (now : Nat) (tok : Option Token)
    (st : AuthState) : LogoutResult × AuthState :=
  match tok with
  | none => (.missingToken, st)
  | some t =>
    match jwtVerify secret t now with
    | .invalid => (.invalidToken, st)
    | .expired => (.invalidToken, st)
    | .ok p => (.loggedOut, { st with sessionStore := alErase st.sessionStore p.sessionId })

/-- Tag of a `/auth/verify-otp` outcome, for comparison with the check
order stated by the specification. -/
inductive OtpCheckTag where
  | validation
  | notFound
  | tooMany
  | expired
  | invalid (remaining : Nat)
  | ok
  deriving DecidableEq, Repr

/-- Forgets everything but the outcome kind of a verify-otp result. -/
def tagOf : VerifyOtpResult → OtpCheckTag
  | .validationError => .validation
  | .notFoundError => .notFound
  | .tooManyAttemptsError => .tooMany
  | .expiredError => .expired
  | .invalidCodeError r => .invalid r
  | .success _ _ _ => .ok

/-- Spec-side definition, written from the specification's ordering
sentence ("checks occur in this fixed order — existence, attempt-limit,
expiry, equality"), to be compared with the implementation `verifyOtp`:
existence first, then `attempts >= 3`, then `now > expiresAt`, then code
equality, and otherwise success. -/
def specVerifyOrder (entry : Option OtpEntry) (now : Nat) (otp : JValue) : OtpCheckTag :=
  match entry with
  | none => .notFound
  | some e =>
    if e.attempts ≥ 3 then .tooMany
    else if now > e.expiresAt then .expired
    else if jStrictEq (.jstr e.otp) otp = false then .invalid (3 - (e.attempts + 1))
    else .ok

/-! ## Helper lemmas about the stores -/

theorem alLookup_erase_self {α : Type} (l : List (String × α)) (k : String) :
    alLookup (alErase l k) k = none := by
  induction l with
  | nil => rfl
  | cons p rest ih =>
    obtain ⟨k', v⟩ := p
    by_cases h : k' = k
    · simpa [alErase, h] using ih
    · simp [alErase, alLookup, h, ih]

theorem alLookup_insert_self {α : Type} (l : List (String × α)) (k : String) (v : α) :
    alLookup (alInsert l k v) k = some v := by
  simp [alInsert, alLookup]

/-! ## Helper lemmas about the verify-otp branches -/

theorem jTruthy_jstr {s : String} (h : s ≠ "") : jTruthy (.jstr s) = true := by
  simp [jTruthy, h]

theorem emailOk_ne_empty {e : String} (h : emailOk e = true) : e ≠ "" := by
  intro he
  subst he
  exact absurd h (by decide)

theorem verifyOtp_notFound {secret : String} {ttl now : Nat} {sid email : String}
    {otp : JValue} {st : AuthState}
    (he : email ≠ "") (ht : jTruthy otp = true)
    (h : alLookup st.otpStore email = none) :
    verifyOtp secret ttl now sid email otp st = (.notFoundError, st) := by
  simp [verifyOtp, he, ht, h]

theorem verifyOtp_tooMany {secret : String} {ttl now : Nat} {sid email : String}
    {otp : JValue} {st : AuthState} {e : OtpEntry}
    (he : email ≠ "") (ht : jTruthy otp = true)
    (h : alLookup st.otpStore email = some e) (ha : 3 ≤ e.attempts) :
    verifyOtp secret ttl now sid email otp st =
      (.tooManyAttemptsError, { st with otpStore := alErase st.otpStore email }) := by
  simp [verifyOtp, he, ht, h, ha]

theorem verifyOtp_expired {secret : String} {ttl now : Nat} {sid email : String}
    {otp : JValue} {st : AuthState} {e : OtpEntry}
    (he : email ≠ "") (ht : jTruthy otp = true)
    (h : alLookup st.otpStore email = some e) (ha : e.attempts < 3)
    (hx : e.expiresAt < now) :
    verifyOtp secret ttl now sid email otp st =
      (.expiredError, { st with otpStore := alErase st.otpStore email }) := by
  have ha' : ¬ 3 ≤ e.attempts := by omega
  simp [verifyOtp, he, ht, h, ha', hx]

theorem verifyOtp_invalid {secret : String} {ttl now : Nat} {sid email : String}
    {otp : JValue} {st : AuthState} {e : OtpEntry}
    (he : email ≠ "") (ht : jTruthy otp = true)
    (h : alLookup st.otpStore email = some e) (ha : e.attempts < 3)
    (hx : ¬ e.expiresAt < now) (hm : jStrictEq (.jstr e.otp) otp = false) :
    verifyOtp secret ttl now sid email otp st =
      (.invalidCodeError (3 - (e.attempts + 1)),
       { st with otpStore := alInsert st.otpStore email { e with attempts := e.attempts + 1 } }) := by
  have ha' : ¬ 3 ≤ e.attempts := by omega
  simp [verifyOtp, he, ht, h, ha', hx, hm]

theorem verifyOtp_success {secret : String} {ttl now : Nat} {sid email : String}
    {otp : JValue} {st : AuthState} {e : OtpEntry}
    (he : email ≠ "") (ht : jTruthy otp = true)
    (h : alLookup st.otpStore email = some e) (ha : e.attempts < 3)
    (hx : ¬ e.expiresAt < now) (hm : jStrictEq (.jstr e.otp) otp = true) :
    verifyOtp secret ttl now sid email otp st =
      (.success (generateToken secret ttl now email sid) sid email,
       { otpStore := alErase st.otpStore email
         sessionStore := alInsert st.sessionStore sid
           { email := email, createdAt := now, lastActivity := now } }) := by
  have ha' : ¬ 3 ≤ e.attempts := by omega
  simp [verifyOtp, he, ht, h, ha', hx, hm]

/-! ## Helper lemmas about decimal digit strings -/

theorem digitVal_digitChar {d : Nat} (h : d < 10) : digitVal (digitChar d) = d := by
  interval_cases d <;> rfl

theorem isDigit_digitChar {d : Nat} (h : d < 10) : (digitChar d).isDigit = true := by
  interval_cases d <;> decide

theorem mem_natDigitsAux {fuel : Nat} : ∀ {n : Nat}, n < fuel → ∀ {c : Char},
    c ∈ natDigitsAux fuel n → ∃ d, d < 10 ∧ c = digitChar d := by
  induction fuel with
  | zero => intro n hn; omega
  | succ fuel ih =>
    intro n hn c hc
    by_cases h : n < 10
    · simp [natDigitsAux, h] at hc
      exact ⟨n, h, hc⟩
    · simp [natDigitsAux, h] at hc
      rcases hc with hc | hc
      · exact ⟨n % 10, Nat.mod_lt _ (by omega), hc⟩
      · have hd : n / 10 < n := Nat.div_lt_self (by omega) (by omega)
        exact ih (by omega) hc

theorem parse_natDigitsAux {fuel : Nat} : ∀ {n : Nat}, n < fuel →
    parseDigitsLE (natDigitsAux fuel n) = n := by
  induction fuel with
  | zero => intro n hn; omega
  | succ fuel ih =>
    intro n hn
    by_cases h : n < 10
    · simp [natDigitsAux, h, parseDigitsLE, digitVal_digitChar h]
    · have hd : n / 10 < n := Nat.div_lt_self (by omega) (by omega)
      have := ih (n := n / 10) (by omega)
      simp [natDigitsAux, h, parseDigitsLE, this, digitVal_digitChar (Nat.mod_lt n (by omega))]
      omega

theorem parseDigitsLE_lt {l : List Char} (h : ∀ c ∈ l, digitVal c < 10) :
    parseDigitsLE l < 10 ^ l.length := by
  induction l with
  | nil => simp [parseDigitsLE]
  | cons c rest ih =>
    have h1 : digitVal c < 10 := h c (by simp)
    have h2 : parseDigitsLE rest < 10 ^ rest.length := ih (fun c hc => h c (by simp [hc]))
    calc parseDigitsLE (c :: rest) = digitVal c + 10 * parseDigitsLE rest := rfl
      _ < 10 * (parseDigitsLE rest + 1) := by omega
      _ ≤ 10 * 10 ^ rest.length := by
          exact Nat.mul_le_mul_left 10 (by omega)
      _ = 10 ^ (c :: rest).length := by
          simp [List.length_cons, pow_succ]
          ring

theorem parseDigitsLE_append_digit (l : List Char) (c : Char) :
    parseDigitsLE (l ++ [c]) = parseDigitsLE l + digitVal c * 10 ^ l.length := by
  induction l with
  | nil => simp [parseDigitsLE]
  | cons a rest ih =>
    rw [List.cons_append, parseDigitsLE, parseDigitsLE, ih, List.length_cons, pow_succ]
    ring

theorem length_natDigitsAux_le {fuel : Nat} : ∀ {n k : Nat}, n < fuel → n < 10 ^ k →
    1 ≤ k → (natDigitsAux fuel n).length ≤ k := by
  induction fuel with
  | zero => intro n k hn; omega
  | succ fuel ih =>
    intro n k hn hnk hk
    by_cases h : n < 10
    · simp [natDigitsAux, h]
      omega
    · match k with
      | 0 => omega
      | j + 1 =>
        have hj : 1 ≤ j := by
          by_contra hj
          have : j = 0 := by omega
          subst this
          simp at hnk
          omega
        have hdiv : n / 10 < 10 ^ j := by
          rw [Nat.div_lt_iff_lt_mul (by omega)]
          calc n < 10 ^ (j + 1) := hnk
            _ = 10 ^ j * 10 := by rw [pow_succ]
        have hd : n / 10 < n := Nat.div_lt_self (by omega) (by omega)
        have := ih (n := n / 10) (k := j) (by omega) hdiv hj
        simp [natDigitsAux, h]
        omega

theorem le_length_natDigitsAux {fuel : Nat} : ∀ {n k : Nat}, n < fuel → 10 ^ k ≤ n →
    k + 1 ≤ (natDigitsAux fuel n).length := by
  induction fuel with
  | zero => intro n k hn; omega
  | succ fuel ih =>
    intro n k hn hkn
    by_cases h : n < 10
    · match k with
      | 0 => simp [natDigitsAux, h]
      | j + 1 =>
        have : (10 : Nat) ≤ 10 ^ (j + 1) := by
          calc (10 : Nat) = 10 ^ 1 := by norm_num
            _ ≤ 10 ^ (j + 1) := Nat.pow_le_pow_right (by omega) (by omega)
        omega
    · match k with
      | 0 =>
        simp [natDigitsAux, h]
      | j + 1 =>
        have hdiv : 10 ^ j ≤ n / 10 := by
          rw [Nat.le_div_iff_mul_le (by omega)]
          calc 10 ^ j * 10 = 10 ^ (j + 1) := (pow_succ 10 j).symm
            _ ≤ n := hkn
        have hd : n / 10 < n := Nat.div_lt_self (by omega) (by omega)
        have := ih (n := n / 10) (k := j) (by omega) hdiv
        simp [natDigitsAux, h]
        omega

theorem natToString_length {n : Nat} (h1 : 100000 ≤ n) (h2 : n < 1000000) :
    (natToString n).length = 6 := by
  have hle : (natDigitsAux (n + 1) n).length ≤ 6 :=
    length_natDigitsAux_le (by omega) (k := 6) (by norm_num; omega) (by omega)
  have hge : 6 ≤ (natDigitsAux (n + 1) n).length :=
    le_length_natDigitsAux (by omega) (k := 5) (by norm_num; omega)
  show ((natDigitsLE n).reverse).length = 6
  rw [List.length_reverse]
  unfold natDigitsLE
  omega

theorem natToString_all_digits (n : Nat) :
    ∀ c ∈ (natToString n).data, c.isDigit = true := by
  intro c hc
  have hc' : c ∈ natDigitsAux (n + 1) n := by
    have : c ∈ (natDigitsLE n).reverse := hc
    rw [List.mem_reverse] at this
    exact this
  obtain ⟨d, hd, rfl⟩ := mem_natDigitsAux (by omega) hc'
  exact isDigit_digitChar hd

theorem natToString_head_ne_zero {n : Nat} (h1 : 100000 ≤ n) (h2 : n < 1000000) :
    (natToString n).data.head? ≠ some '0' := by
  intro hhead
  have hdata : (natToString n).data = (natDigitsLE n).reverse := rfl
  rw [hdata, List.head?_reverse] at hhead
  have hlen : (natDigitsLE n).length = 6 := by
    have := natToString_length h1 h2
    simpa [natToString, String.length] using this
  have hne : natDigitsLE n ≠ [] := by
    intro hnil
    rw [hnil] at hlen
    simp at hlen
  have hlast : (natDigitsLE n).getLast hne = '0' := by
    have heq := List.getLast?_eq_getLast (natDigitsLE n) hne
    rw [heq] at hhead
    exact Option.some_injective _ hhead
  have hsplit : (natDigitsLE n).dropLast ++ ['0'] = natDigitsLE n := by
    rw [← hlast]
    exact List.dropLast_append_getLast hne
  have hparse : parseDigitsLE (natDigitsLE n) = n := parse_natDigitsAux (by omega)
  have hdigits : ∀ c ∈ (natDigitsLE n).dropLast, digitVal c < 10 := by
    intro c hc
    have hc' : c ∈ natDigitsAux (n + 1) n := List.dropLast_subset _ hc
    obtain ⟨d, hd, rfl⟩ := mem_natDigitsAux (by omega) hc'
    rw [digitVal_digitChar hd]
    exact hd
  have hdl : (natDigitsLE n).dropLast.length = 5 := by
    rw [List.length_dropLast, hlen]
  have hlt : parseDigitsLE (natDigitsLE n).dropLast < 10 ^ 5 := by
    have hp := parseDigitsLE_lt hdigits
    rw [hdl] at hp
    exact hp
  have hfin : parseDigitsLE ((natDigitsLE n).dropLast ++ ['0']) = n := by
    rw [hsplit]
    exact hparse
  rw [parseDigitsLE_append_digit, hdl] at hfin
  have hz : digitVal '0' = 0 := rfl
  rw [hz] at hfin
  have hpow : (10 : Nat) ^ 5 = 100000 := by norm_num
  omega

/-! ## Claim theorems -/

/-- Claim C1: for every bearer token whose signature is valid and which is
not expired, if the sessionId embedded in it is absent from the session
store (for example because `/auth/logout` was already called for that
session), then `GET /auth/verify-token` fails with the 401
session-not-found error and never returns a success result; cryptographic
validity of the token alone is not sufficient for authorization. -/
theorem verifyToken_rejects_destroyed_session (secret : String) (now : Nat)
    (t : Token) (st : AuthState)
    (hsig : t.signedWith = secret) (hexp : now < t.payload.exp)
    (habs : alLookup st.sessionStore t.payload.sessionId = none) :
    (verifyTokenEndpoint secret now (some t) st).1 = .sessionNotFound ∧
      ∀ e s, (verifyTokenEndpoint secret now (some t) st).1 ≠ .valid e s := by
  have hx : ¬ t.payload.exp ≤ now := by omega
  have hj : jwtVerify secret t now = .ok t.payload := by
    simp [jwtVerify, hsig, hx]
  constructor
  · simp [verifyTokenEndpoint, hj, habs]
  · intro e s
    simp [verifyTokenEndpoint, hj, habs]

/-- Witness for C1: a concrete token minted at time 0 with a 86400 lifetime
is still cryptographically valid at time 100, yet after logout has
destroyed the session the verify-token endpoint reports session-not-found. -/
theorem verifyToken_rejects_destroyed_session_witness :
    (verifyTokenEndpoint "k" 100 (some (generateToken "k" 86400 0 "a@x.com" "sid"))
        (logoutEndpoint "k" 50 (some (generateToken "k" 86400 0 "a@x.com" "sid"))
          { otpStore := [],
            sessionStore := [("sid", { email := "a@x.com", createdAt := 0, lastActivity := 0 })] }).2).1
      = .sessionNotFound ∧
    ∀ e s,
      (verifyTokenEndpoint "k" 100 (some (generateToken "k" 86400 0 "a@x.com" "sid"))
        (logoutEndpoint "k" 50 (some (generateToken "k" 86400 0 "a@x.com" "sid"))
          { otpStore := [],
            sessionStore := [("sid", { email := "a@x.com", createdAt := 0, lastActivity := 0 })] }).2).1
      ≠ .valid e s :=
  verifyToken_rejects_destroyed_session "k" 100 _ _ (by rfl) (by decide) (by decide)

/-- Claim C2: the verify-otp failure checks are applied in exactly the
fixed order existence, attempt limit, expiry, code equality — the
endpoint's outcome tag coincides with the spec-side ordered check for
every request that passes body validation; in particular an entry that is
both attempt-exhausted and expired yields `TooManyAttemptsError`, not
`ExpiredError`. -/
theorem verifyOtp_check_order (secret : String) (ttl now : Nat) (sid email : String)
    (otp : JValue) (st : AuthState)
    (he : email ≠ "") (ht : jTruthy otp = true) :
    tagOf (verifyOtp secret ttl now sid email otp st).1
        = specVerifyOrder (alLookup st.otpStore email) now otp ∧
      ∀ e, alLookup st.otpStore email = some e → 3 ≤ e.attempts →
        (verifyOtp secret ttl now sid email otp st).1 = .tooManyAttemptsError := by
  constructor
  · cases h : alLookup st.otpStore email with
    | none =>
      rw [verifyOtp_notFound he ht h]
      simp [tagOf, specVerifyOrder]
    | some e =>
      by_cases ha : 3 ≤ e.attempts
      · rw [verifyOtp_tooMany he ht h ha]
        simp [tagOf, specVerifyOrder, ha]
      · by_cases hx : e.expiresAt < now
        · rw [verifyOtp_expired he ht h (by omega) hx]
          simp [tagOf, specVerifyOrder, ha, hx]
        · cases hm : jStrictEq (.jstr e.otp) otp with
          | false =>
            rw [verifyOtp_invalid he ht h (by omega) hx hm]
            simp [tagOf, specVerifyOrder, ha, hx, hm]
          | true =>
            rw [verifyOtp_success he ht h (by omega) hx hm]
            simp [tagOf, specVerifyOrder, ha, hx, hm]
  · intro e h ha
    rw [verifyOtp_tooMany he ht h ha]

/-- Witness for C2: on a store whose entry is both attempt-exhausted
(`attempts = 3`) and expired (`expiresAt = 10 < now = 20`), the outcome
tag matches the spec-side ordered check and is too-many-attempts. -/
theorem verifyOtp_check_order_witness :
    tagOf (verifyOtp "k" 86400 20 "s" "a@x.com" (.jstr "1")
        { otpStore := [("a@x.com", { otp := "9", expiresAt := 10, attempts := 3 })],
          sessionStore := [] }).1
      = specVerifyOrder
          (alLookup
            ({ otpStore := [("a@x.com", { otp := "9", expiresAt := 10, attempts := 3 })],
               sessionStore := [] } : AuthState).otpStore "a@x.com") 20 (.jstr "1") ∧
    ∀ e, alLookup
        ({ otpStore := [("a@x.com", { otp := "9", expiresAt := 10, attempts := 3 })],
           sessionStore := [] } : AuthState).otpStore "a@x.com" = some e → 3 ≤ e.attempts →
      (verifyOtp "k" 86400 20 "s" "a@x.com" (.jstr "1")
        { otpStore := [("a@x.com", { otp := "9", expiresAt := 10, attempts := 3 })],
          sessionStore := [] }).1 = .tooManyAttemptsError :=
  verifyOtp_check_order "k" 86400 20 "s" "a@x.com" (.jstr "1") _ (by decide) (by decide)

/-- Counterexample to claim C4 as stated: an entry whose `expiresAt` lies
more than 5 minutes in the past (`expiresAt = 0`, `now = 600001`) but
whose attempt counter is already exhausted (`attempts = 3`) is rejected
with `TooManyAttemptsError`, not `ExpiredError`, even though the
submitted code equals the stored one. -/
theorem verifyOtp_expired_counterexample :
    (verifyOtp "k" 86400 600001 "sid" "a@x.com" (.jstr "123456")
        { otpStore := [("a@x.com", { otp := "123456", expiresAt := 0, attempts := 3 })],
          sessionStore := [] }).1 = .tooManyAttemptsError ∧
    (verifyOtp "k" 86400 600001 "sid" "a@x.com" (.jstr "123456")
        { otpStore := [("a@x.com", { otp := "123456", expiresAt := 0, attempts := 3 })],
          sessionStore := [] }).1 ≠ .expiredError := by
  decide

/-- Claim C4, amended: for an entry whose `expiresAt` lies more than 5
minutes in the past and whose attempt counter is not yet exhausted
(`attempts < 3`: otherwise the attempt-limit check takes precedence), any
verify-otp call fails with `ExpiredError` — even when the submitted code
equals the stored one — and the expired entry is deleted by that call. -/
theorem verifyOtp_expired_rejected (secret : String) (ttl now : Nat) (sid email : String)
    (otp : JValue) (e : OtpEntry) (st : AuthState)
    (hemail : email ≠ "") (ht : jTruthy otp = true)
    (h : alLookup st.otpStore email = some e)
    (ha : e.attempts < 3)
    (hx : e.expiresAt + 5 * 60 * 1000 < now) :
    (verifyOtp secret ttl now sid email otp st).1 = .expiredError ∧
      alLookup (verifyOtp secret ttl now sid email otp st).2.otpStore email = none := by
  have hx' : e.expiresAt < now := by omega
  rw [verifyOtp_expired hemail ht h ha hx']
  exact ⟨rfl, alLookup_erase_self _ _⟩

/-- Witness for the amended C4: a fresh entry whose expiry 300000 lies
more than 5 minutes before `now = 700000` is rejected as expired even
though the submitted code matches, and the entry is gone afterwards. -/
theorem verifyOtp_expired_rejected_witness :
    (verifyOtp "k" 86400 700000 "sid" "a@x.com" (.jstr "123456")
        { otpStore := [("a@x.com", { otp := "123456", expiresAt := 300000, attempts := 0 })],
          sessionStore := [] }).1 = .expiredError ∧
    alLookup (verifyOtp "k" 86400 700000 "sid" "a@x.com" (.jstr "123456")
        { otpStore := [("a@x.com", { otp := "123456", expiresAt := 300000, attempts := 0 })],
          sessionStore := [] }).2.otpStore "a@x.com" = none :=
  verifyOtp_expired_rejected "k" 86400 700000 "sid" "a@x.com" (.jstr "123456")
    { otp := "123456", expiresAt := 300000, attempts := 0 }
    { otpStore := [("a@x.com", { otp := "123456", expiresAt := 300000, attempts := 0 })],
      sessionStore := [] }
    (by decide) (by decide) (by decide) (by decide) (by decide)

/-- Counterexample to claim C6 as stated: the verified payload is not
exactly the pair `{identifier, sessionId}` — `jwt.sign` with `expiresIn`
adds the registered claims `iat` and `exp` into the payload and
`jwt.verify` returns them.  Concretely, verifying a token issued at
instant 0 for ("a@x.com", "sid") yields the payload with `iat = 0` and
`exp = 86400` alongside the pair, and two tokens for the same
identifier/sessionId pair issued at instants 0 and 100 verify to
different payloads — which could not happen if the verified payload were
exactly the pair. -/
theorem token_round_trip_counterexample :
    jwtVerify "k" (generateToken "k" 86400 0 "a@x.com" "sid") 5
        = .ok { email := "a@x.com", sessionId := "sid", iat := 0, exp := 86400 } ∧
    jwtVerify "k" (generateToken "k" 86400 0 "a@x.com" "sid") 5
        ≠ jwtVerify "k" (generateToken "k" 86400 100 "a@x.com" "sid") 5 := by
  decide

/-- Claim C6, amended: issuing a token for an identifier/sessionId pair
and then verifying it (at any instant before expiry) returns a payload
containing exactly that `email` and `sessionId` — no field of the pair
is missing or altered — but the payload additionally carries the
registered claims `jsonwebtoken` adds at signing time: `iat`, the issue
instant, and `exp`, the expiry instant. -/
theorem token_round_trip (secret : String) (ttl issuedAt verifiedAt : Nat)
    (email sessionId : String) (h : verifiedAt < issuedAt + ttl) :
    jwtVerify secret (generateToken secret ttl issuedAt email sessionId) verifiedAt
      = .ok { email := email, sessionId := sessionId, iat := issuedAt, exp := issuedAt + ttl } := by
  have hx : ¬ issuedAt + ttl ≤ verifiedAt := by omega
  simp [jwtVerify, generateToken, hx]

/-- Witness for the amended C6: a concrete issue-then-verify round trip,
recovering the pair together with `iat` and `exp`. -/
theorem token_round_trip_witness :
    jwtVerify "k" (generateToken "k" 86400 0 "a@x.com" "sid") 5
      = .ok { email := "a@x.com", sessionId := "sid", iat := 0, exp := 86400 } :=
  token_round_trip "k" 86400 0 5 "a@x.com" "sid" (by decide)

/-- Counterexample to claim C9 as stated: with `JWT_SECRET` absent from
the environment the server nevertheless starts and listens on the default
port — there is no fail-fast startup check — while token issuance with
the missing secret raises the library error only at call time. -/
theorem missing_secret_startup_counterexample :
    serverStartup { jwtSecret := none, emailUser := none, port := none } = .listening 5000 ∧
    generateTokenE none 86400 0 "a@x.com" "sid"
      = .error "secretOrPrivateKey must have a value" := by
  exact ⟨rfl, rfl⟩

/-- Claim C9, amended: the absence of the token-signing secret is not
checked at startup — the server starts listening for every environment,
the missing secret included — and the missing secret instead surfaces as
a runtime error on the first token-issue (or token-verify) call. -/
theorem missing_secret_not_checked_at_startup (env : Env) (ttl now : Nat)
    (email sessionId : String) :
    serverStartup env = .listening (env.port.getD 5000) ∧
    generateTokenE none ttl now email sessionId
      = .error "secretOrPrivateKey must have a value" :=
  ⟨rfl, rfl⟩

/-- Claim C10: verify-otp compares the submitted value to the stored code
with strict (type-sensitive) equality, so a request whose otp field is a
JSON number whose digits equal the stored code string is rejected as an
invalid code and increments the attempts counter. -/
theorem verifyOtp_rejects_number_otp (secret : String) (ttl now : Nat) (sid email : String)
    (st : AuthState) (e : OtpEntry) (r : Nat)
    (hemail : email ≠ "") (h : alLookup st.otpStore email = some e)
    (ha : e.attempts < 3) (hx : ¬ e.expiresAt < now)
    (hdigits : e.otp = natToString r) (hr : 0 < r) :
    (verifyOtp secret ttl now sid email (.jnum (r : Int)) st).1
        = .invalidCodeError (3 - (e.attempts + 1)) ∧
      alLookup (verifyOtp secret ttl now sid email (.jnum (r : Int)) st).2.otpStore email
        = some { e with attempts := e.attempts + 1 } := by
  have ht : jTruthy (.jnum (r : Int)) = true := by
    simp [jTruthy]
    omega
  have hm : jStrictEq (.jstr e.otp) (.jnum (r : Int)) = false := rfl
  rw [verifyOtp_invalid hemail ht h ha hx hm]
  exact ⟨rfl, alLookup_insert_self _ _ _⟩

/-- Witness for C10: submitting the JSON number 123456 against the stored
string code "123456" is rejected as an invalid code with 2 attempts left
and the attempt counter incremented to 1. -/
theorem verifyOtp_rejects_number_otp_witness :
    (verifyOtp "k" 86400 5 "sid" "a@x.com" (.jnum ((123456 : Nat) : Int))
        { otpStore := [("a@x.com", { otp := "123456", expiresAt := 300000, attempts := 0 })],
          sessionStore := [] }).1 = .invalidCodeError (3 - (0 + 1)) ∧
    alLookup (verifyOtp "k" 86400 5 "sid" "a@x.com" (.jnum ((123456 : Nat) : Int))
        { otpStore := [("a@x.com", { otp := "123456", expiresAt := 300000, attempts := 0 })],
          sessionStore := [] }).2.otpStore "a@x.com"
      = some { otp := "123456", expiresAt := 300000, attempts := 0 + 1 } :=
  verifyOtp_rejects_number_otp "k" 86400 5 "sid" "a@x.com"
    { otpStore := [("a@x.com", { otp := "123456", expiresAt := 300000, attempts := 0 })],
      sessionStore := [] }
    { otp := "123456", expiresAt := 300000, attempts := 0 } 123456
    (by decide) (by decide) (by decide) (by decide) (by decide) (by decide)

/-- Claim C3: starting from a fresh entry (`attempts = 0`), three
consecutive wrong submissions each fail with `InvalidCodeError` reporting
2, 1 and 0 attempts remaining while incrementing the counter; the 4th
submission fails with `TooManyAttemptsError` even though it submits the
correct code, that 4th call deletes the entry, and a 5th verify for the
same identifier fails with `NotFoundError`. -/
theorem otp_lockout_after_three_wrong (secret : String) (ttl : Nat)
    (n1 n2 n3 n4 n5 : Nat) (sid1 sid2 sid3 sid4 sid5 email code : String)
    (expAt : Nat) (wrong : JValue) (st0 : AuthState)
    (hemail : email ≠ "") (hcode : code ≠ "")
    (hwt : jTruthy wrong = true)
    (hwne : jStrictEq (.jstr code) wrong = false)
    (h0 : alLookup st0.otpStore email = some { otp := code, expiresAt := expAt, attempts := 0 })
    (h1 : n1 ≤ expAt) (h2 : n2 ≤ expAt) (h3 : n3 ≤ expAt) :
    let step1 := verifyOtp secret ttl n1 sid1 email wrong st0
    let step2 := verifyOtp secret ttl n2 sid2 email wrong step1.2
    let step3 := verifyOtp secret ttl n3 sid3 email wrong step2.2
    let step4 := verifyOtp secret ttl n4 sid4 email (.jstr code) step3.2
    let step5 := verifyOtp secret ttl n5 sid5 email (.jstr code) step4.2
    step1.1 = .invalidCodeError 2 ∧
    step2.1 = .invalidCodeError 1 ∧
    step3.1 = .invalidCodeError 0 ∧
    step4.1 = .tooManyAttemptsError ∧
    alLookup step4.2.otpStore email = none ∧
    step5.1 = .notFoundError := by
  have hct := jTruthy_jstr hcode
  obtain ⟨st1, Ep1, Hl1⟩ : ∃ st1 : AuthState,
      verifyOtp secret ttl n1 sid1 email wrong st0 = (.invalidCodeError 2, st1) ∧
      alLookup st1.otpStore email = some { otp := code, expiresAt := expAt, attempts := 1 } :=
    ⟨_, verifyOtp_invalid hemail hwt h0 (by show (0:Nat) < 3; omega)
      (by show ¬ expAt < n1; omega) hwne,
      alLookup_insert_self _ _ _⟩
  obtain ⟨st2, Ep2, Hl2⟩ : ∃ st2 : AuthState,
      verifyOtp secret ttl n2 sid2 email wrong st1 = (.invalidCodeError 1, st2) ∧
      alLookup st2.otpStore email = some { otp := code, expiresAt := expAt, attempts := 2 } :=
    ⟨_, verifyOtp_invalid hemail hwt Hl1 (by show (1:Nat) < 3; omega)
      (by show ¬ expAt < n2; omega) hwne,
      alLookup_insert_self _ _ _⟩
  obtain ⟨st3, Ep3, Hl3⟩ : ∃ st3 : AuthState,
      verifyOtp secret ttl n3 sid3 email wrong st2 = (.invalidCodeError 0, st3) ∧
      alLookup st3.otpStore email = some { otp := code, expiresAt := expAt, attempts := 3 } :=
    ⟨_, verifyOtp_invalid hemail hwt Hl2 (by show (2:Nat) < 3; omega)
      (by show ¬ expAt < n3; omega) hwne,
      alLookup_insert_self _ _ _⟩
  obtain ⟨st4, Ep4, Hl4⟩ : ∃ st4 : AuthState,
      verifyOtp secret ttl n4 sid4 email (.jstr code) st3 = (.tooManyAttemptsError, st4) ∧
      alLookup st4.otpStore email = none :=
    ⟨_, verifyOtp_tooMany hemail hct Hl3 (by show (3:Nat) ≤ 3; omega), alLookup_erase_self _ _⟩
  have Ep5 : verifyOtp secret ttl n5 sid5 email (.jstr code) st4 = (.notFoundError, st4) :=
    verifyOtp_notFound hemail hct Hl4
  dsimp only
  rw [Ep1]
  dsimp only
  rw [Ep2]
  dsimp only
  rw [Ep3]
  dsimp only
  rw [Ep4]
  dsimp only
  rw [Ep5]
  exact ⟨rfl, rfl, rfl, rfl, Hl4, rfl⟩

/-- Witness for C3: a concrete five-call trace with stored code "123456",
three wrong submissions "000000", then two correct ones. -/
theorem otp_lockout_after_three_wrong_witness :
    let st0 : AuthState :=
      { otpStore := [("a@x.com", { otp := "123456", expiresAt := 300000, attempts := 0 })],
        sessionStore := [] }
    let step1 := verifyOtp "k" 86400 1 "s1" "a@x.com" (.jstr "000000") st0
    let step2 := verifyOtp "k" 86400 2 "s2" "a@x.com" (.jstr "000000") step1.2
    let step3 := verifyOtp "k" 86400 3 "s3" "a@x.com" (.jstr "000000") step2.2
    let step4 := verifyOtp "k" 86400 4 "s4" "a@x.com" (.jstr "123456") step3.2
    let step5 := verifyOtp "k" 86400 5 "s5" "a@x.com" (.jstr "123456") step4.2
    step1.1 = .invalidCodeError 2 ∧
    step2.1 = .invalidCodeError 1 ∧
    step3.1 = .invalidCodeError 0 ∧
    step4.1 = .tooManyAttemptsError ∧
    alLookup step4.2.otpStore "a@x.com" = none ∧
    step5.1 = .notFoundError :=
  otp_lockout_after_three_wrong "k" 86400 1 2 3 4 5 "s1" "s2" "s3" "s4" "s5"
    "a@x.com" "123456" 300000 (.jstr "000000")
    { otpStore := [("a@x.com", { otp := "123456", expiresAt := 300000, attempts := 0 })],
      sessionStore := [] }
    (by decide) (by decide) (by decide) (by decide) (by decide)
    (by decide) (by decide) (by decide)

/-- Claim C5: for a live, non-exhausted, unexpired entry, submitting the
matching code succeeds: the call deletes the OTP entry, creates a new
session keyed by the fresh session identifier, and returns the issued
token together with the sessionId and identifier; immediately resubmitting
the same correct code fails with `NotFoundError`. -/
theorem verifyOtp_success_single_use (secret : String) (ttl now now2 : Nat)
    (sid sid2 email : String) (e : OtpEntry) (st : AuthState)
    (hemail : email ≠ "") (hcode : e.otp ≠ "")
    (h : alLookup st.otpStore email = some e)
    (ha : e.attempts < 3) (hx : ¬ e.expiresAt < now) :
    (verifyOtp secret ttl now sid email (.jstr e.otp) st).1
        = .success (generateToken secret ttl now email sid) sid email ∧
      alLookup (verifyOtp secret ttl now sid email (.jstr e.otp) st).2.otpStore email = none ∧
      alLookup (verifyOtp secret ttl now sid email (.jstr e.otp) st).2.sessionStore sid
        = some { email := email, createdAt := now, lastActivity := now } ∧
      (verifyOtp secret ttl now2 sid2 email (.jstr e.otp)
          (verifyOtp secret ttl now sid email (.jstr e.otp) st).2).1 = .notFoundError := by
  have hct := jTruthy_jstr hcode
  have hm : jStrictEq (.jstr e.otp) (.jstr e.otp) = true := by
    simp [jStrictEq]
  have E := @verifyOtp_success secret ttl now sid email (.jstr e.otp) st e
    hemail hct h ha hx hm
  rw [E]
  dsimp only
  refine ⟨rfl, alLookup_erase_self _ _, alLookup_insert_self _ _ _, ?_⟩
  rw [verifyOtp_notFound hemail hct (alLookup_erase_self _ _)]

/-- Witness for C5: a concrete successful verify followed by an immediate
resubmission of the same correct code. -/
theorem verifyOtp_success_single_use_witness :
    (verifyOtp "k" 86400 5 "sid" "a@x.com"
        (.jstr ({ otp := "123456", expiresAt := 300000, attempts := 0 } : OtpEntry).otp)
        { otpStore := [("a@x.com", { otp := "123456", expiresAt := 300000, attempts := 0 })],
          sessionStore := [] }).1
        = .success (generateToken "k" 86400 5 "a@x.com" "sid") "sid" "a@x.com" ∧
      alLookup (verifyOtp "k" 86400 5 "sid" "a@x.com"
        (.jstr ({ otp := "123456", expiresAt := 300000, attempts := 0 } : OtpEntry).otp)
        { otpStore := [("a@x.com", { otp := "123456", expiresAt := 300000, attempts := 0 })],
          sessionStore := [] }).2.otpStore "a@x.com" = none ∧
      alLookup (verifyOtp "k" 86400 5 "sid" "a@x.com"
        (.jstr ({ otp := "123456", expiresAt := 300000, attempts := 0 } : OtpEntry).otp)
        { otpStore := [("a@x.com", { otp := "123456", expiresAt := 300000, attempts := 0 })],
          sessionStore := [] }).2.sessionStore "sid"
        = some { email := "a@x.com", createdAt := 5, lastActivity := 5 } ∧
      (verifyOtp "k" 86400 6 "sid2" "a@x.com"
          (.jstr ({ otp := "123456", expiresAt := 300000, attempts := 0 } : OtpEntry).otp)
          (verifyOtp "k" 86400 5 "sid" "a@x.com"
            (.jstr ({ otp := "123456", expiresAt := 300000, attempts := 0 } : OtpEntry).otp)
            { otpStore := [("a@x.com", { otp := "123456", expiresAt := 300000, attempts := 0 })],
              sessionStore := [] }).2).1 = .notFoundError :=
  verifyOtp_success_single_use "k" 86400 5 6 "sid" "sid2" "a@x.com"
    { otp := "123456", expiresAt := 300000, attempts := 0 }
    { otpStore := [("a@x.com", { otp := "123456", expiresAt := 300000, attempts := 0 })],
      sessionStore := [] }
    (by decide) (by decide) (by decide) (by decide) (by decide)

/-- Counterexample to claim C7 as stated: not every 6-digit string is a
possible stored code.  `crypto.randomInt(100000, 999999)` draws from the
half-open interval `[100000, 999999)`, whose decimal strings never have a
leading zero, so no draw stores the code "012345". -/
theorem otp_code_leading_zero_impossible :
    (∃ r, 100000 ≤ r ∧ r < 999999 ∧
      (alLookup (sendOtp "a@x.com" r 0 true { otpStore := [], sessionStore := [] }).2.otpStore
          "a@x.com").map OtpEntry.otp = some "012345") = False := by
  apply eq_false
  rintro ⟨r, hr1, hr2, hr3⟩
  have hsend : sendOtp "a@x.com" r 0 true { otpStore := [], sessionStore := [] }
      = (.sent 300,
         { otpStore := [("a@x.com",
             { otp := natToString r, expiresAt := 0 + 5 * 60 * 1000, attempts := 0 })],
           sessionStore := [] }) := by
    unfold sendOtp
    rw [if_neg (by decide), if_neg (by decide)]
    rfl
  rw [hsend] at hr3
  simp [alLookup] at hr3
  have hh := natToString_head_ne_zero (n := r) hr1 (by omega)
  rw [hr3] at hh
  exact hh (by decide)

/-- Claim C7, amended: a successful send-otp stores, for its identifier
and replacing any prior entry, an entry with `attempts = 0`,
`expiresAt = now + 5` minutes and a code that is the decimal string of an
integer drawn from `[100000, 999999)` — hence always exactly 6 digit
characters with a nonzero leading digit, so 6-digit strings with leading
zeros are not possible codes. -/
theorem sendOtp_code_properties (email : String) (r now : Nat) (dispatchOk : Bool)
    (st : AuthState) (hv : emailOk email = true)
    (hr1 : 100000 ≤ r) (hr2 : r < 999999) :
    alLookup (sendOtp email r now dispatchOk st).2.otpStore email
        = some { otp := natToString r, expiresAt := now + 5 * 60 * 1000, attempts := 0 } ∧
      (natToString r).length = 6 ∧
      (∀ c ∈ (natToString r).data, c.isDigit = true) ∧
      (natToString r).data.head? ≠ some '0' := by
  have hne := emailOk_ne_empty hv
  have hstore : (sendOtp email r now dispatchOk st).2
      = { st with otpStore := alInsert st.otpStore email ({ otp := natToString r, expiresAt := now + 5 * 60 * 1000, attempts := 0 }) } := by
    unfold sendOtp
    rw [if_neg hne, if_neg (by simp [hv])]
    cases dispatchOk <;> rfl
  rw [hstore]
  exact ⟨alLookup_insert_self _ _ _, natToString_length hr1 (by omega),
    natToString_all_digits r, natToString_head_ne_zero hr1 (by omega)⟩

/-- Witness for the amended C7: the draw 100000 stores the 6-digit code
"100000" with `attempts = 0` and a 5-minute expiry. -/
theorem sendOtp_code_properties_witness :
    alLookup (sendOtp "a@x.com" 100000 7 true
        { otpStore := [], sessionStore := [] }).2.otpStore "a@x.com"
        = some { otp := natToString 100000, expiresAt := 7 + 5 * 60 * 1000, attempts := 0 } ∧
      (natToString 100000).length = 6 ∧
      (∀ c ∈ (natToString 100000).data, c.isDigit = true) ∧
      (natToString 100000).data.head? ≠ some '0' :=
  sendOtp_code_properties "a@x.com" 100000 7 true
    { otpStore := [], sessionStore := [] }
    (by decide) (by decide) (by decide)

/-- Claim C8: for a well-formed email, the fresh OTP entry is written to
the store before the dispatch outcome is consulted, so a failed dispatch
yields `DeliveryError` while the entry remains stored unchanged, and a
successful dispatch acknowledges with the 300-second expiry window —
with the same stored entry in both cases. -/
theorem sendOtp_delivery_outcomes (email : String) (r now : Nat) (st : AuthState)
    (hv : emailOk email = true) :
    ((sendOtp email r now false st).1 = .deliveryError ∧
      alLookup (sendOtp email r now false st).2.otpStore email
        = some { otp := natToString r, expiresAt := now + 5 * 60 * 1000, attempts := 0 }) ∧
    ((sendOtp email r now true st).1 = .sent 300 ∧
      alLookup (sendOtp email r now true st).2.otpStore email
        = some { otp := natToString r, expiresAt := now + 5 * 60 * 1000, attempts := 0 }) := by
  have hne := emailOk_ne_empty hv
  have hfail : sendOtp email r now false st
      = (.deliveryError,
         { st with otpStore := alInsert st.otpStore email ({ otp := natToString r, expiresAt := now + 5 * 60 * 1000, attempts := 0 }) }) := by
    unfold sendOtp
    rw [if_neg hne, if_neg (by simp [hv])]
    rfl
  have hok : sendOtp email r now true st
      = (.sent 300,
         { st with otpStore := alInsert st.otpStore email ({ otp := natToString r, expiresAt := now + 5 * 60 * 1000, attempts := 0 }) }) := by
    unfold sendOtp
    rw [if_neg hne, if_neg (by simp [hv])]
    rfl
  rw [hfail, hok]
  exact ⟨⟨rfl, alLookup_insert_self _ _ _⟩, ⟨rfl, alLookup_insert_self _ _ _⟩⟩

/-- Witness for C8: concrete send-otp calls for "a@x.com" with draw
123456, one with failing dispatch and one with succeeding dispatch. -/
theorem sendOtp_delivery_outcomes_witness :
    ((sendOtp "a@x.com" 123456 7 false { otpStore := [], sessionStore := [] }).1
        = .deliveryError ∧
      alLookup (sendOtp "a@x.com" 123456 7 false
          { otpStore := [], sessionStore := [] }).2.otpStore "a@x.com"
        = some { otp := natToString 123456, expiresAt := 7 + 5 * 60 * 1000, attempts := 0 }) ∧
    ((sendOtp "a@x.com" 123456 7 true { otpStore := [], sessionStore := [] }).1
        = .sent 300 ∧
      alLookup (sendOtp "a@x.com" 123456 7 true
          { otpStore := [], sessionStore := [] }).2.otpStore "a@x.com"
        = some { otp := natToString 123456, expiresAt := 7 + 5 * 60 * 1000, attempts := 0 }) :=
  sendOtp_delivery_outcomes "a@x.com" 123456 7
    { otpStore := [], sessionStore := [] } (by decide)

end AuthServer
